import Mathlib

/-!
Verification development for the valuecell repository.

Part 1 embeds `src/plugins/nautilus/backtest.py` (the signal-driven
position/PnL simulation engine `SimpleBacktestEngine` together with its
`Position`, `Trade` and `BacktestResult` records).

Part 2 embeds the execution-decision dispatcher
(`src/python/valuecell/agents/market_analysis_orchestrator/execution/`):
`ExecutionDispatcher`, `ExecutionDecision`, `ExecutionResult` and the
`direct_order`, `quant_nautilus` and `grid_strategy` backends.

Python floats are modelled as exact rationals (ℚ); Python `Dict[str, X]`
maps are modelled as association lists with first-key lookup; Python
exceptions are modelled as `Except String`.
-/

namespace Backtest

/-- Association-list lookup, mirroring `dict.get` / `in` on a Python dict
(first matching key wins; reachable engine states have unique keys). -/
def dget {α : Type} (d : List (String × α)) (k : String) : Option α :=
  match d with
  | [] => Option.none
  | (k₁, v) :: rest => if k₁ = k then some v else dget rest k

/-- Association-list update, mirroring `d[k] = v` on a Python dict:
replace the value under the first matching key in place, else append
(Python dicts keep insertion order on overwrite). -/
def dset {α : Type} (d : List (String × α)) (k : String) (v : α) : List (String × α) :=
  match d with
  | [] => [(k, v)]
  | (k₁, w) :: rest => if k₁ = k then (k, v) :: rest else (k₁, w) :: dset rest k v

/-- Association-list deletion, mirroring `del d[k]` on a Python dict
(removes every binding of `k`; reachable engine states have unique keys). -/
def ddel {α : Type} (d : List (String × α)) (k : String) : List (String × α) :=
  d.filter (fun p => p.1 ≠ k)

/-- Modelled from the spec: the `SignalAction` enumeration of
`valuecell.plugins.nautilus.signals` (the module itself is not under the
sources provided; §3 of the spec lists the action set
BUY, SELL, CLOSE_LONG, CLOSE_SHORT, CLOSE_ALL, which matches every use
site in `backtest.py`). -/
inductive SignalAction
  | BUY
  | SELL
  | CLOSE_LONG
  | CLOSE_SHORT
  | CLOSE_ALL
  deriving DecidableEq, Repr

/-- Modelled from the spec: the fields of `TradingSignal`
(`valuecell.plugins.nautilus.signals`) that `backtest.py` reads:
`symbol`, `action` and `quantity`. -/
structure TradingSignal where
  symbol : String
  action : SignalAction
  quantity : ℚ
  deriving DecidableEq, Repr

/-- `Position` dataclass of `backtest.py`. `side` is the literal string
"LONG" or "SHORT", as in the source. -/
structure Position where
  symbol : String
  side : String
  quantity : ℚ
  entry_price : ℚ
  current_price : ℚ := 0
  unrealized_pnl : ℚ := 0
  deriving DecidableEq, Repr

/-- `Position.update_price`: set `current_price` and recompute
`unrealized_pnl` (negated for SHORT). -/
def Position.update_price (pos : Position) (price : ℚ) : Position :=
  { pos with
    current_price := price
    unrealized_pnl :=
      if pos.side = "LONG" then (price - pos.entry_price) * pos.quantity
      else (pos.entry_price - price) * pos.quantity }

/-- `Trade` dataclass of `backtest.py` (a completed trade). -/
structure Trade where
  entry_time : ℚ
  exit_time : ℚ
  symbol : String
  side : String
  entry_price : ℚ
  exit_price : ℚ
  quantity : ℚ
  pnl : ℚ
  pnl_pct : ℚ
  commission : ℚ
  deriving DecidableEq, Repr

/-- The mutable state of `SimpleBacktestEngine`: configuration
(`initial_capital`, `commission`, `slippage`) plus the running ledger
(`capital`, `positions`, `trades`, `equity_curve`). -/
structure EngineState where
  initial_capital : ℚ
  commission : ℚ
  slippage : ℚ
  capital : ℚ
  positions : List (String × Position)
  trades : List Trade
  equity_curve : List ℚ
  deriving DecidableEq, Repr

/-- `SimpleBacktestEngine.__init__`: capital = initial_capital, empty
position map and trade log, equity curve seeded with `[initial_capital]`. -/
def initEngine (initial_capital commission slippage : ℚ) : EngineState :=
  { initial_capital := initial_capital
    commission := commission
    slippage := slippage
    capital := initial_capital
    positions := []
    trades := []
    equity_curve := [initial_capital] }

/-- `SimpleBacktestEngine._execute_signal`: apply one signal at the given
market price and timestamp. The Python `if/elif` chain on
`signal.action` is rendered as a match with one arm per action (the
source has no branch for CLOSE_SHORT, so it is a no-op). The execution
price is `price * (1 + slippage)` for BUY and `price * (1 - slippage)`
otherwise, and `comm = signal.quantity * execution_price * commission`
in every branch, exactly as computed before the Python chain. BUY merges
into any existing position for the symbol by volume-weighted average
(side untouched) or opens a LONG; SELL closes an existing LONG entirely;
CLOSE_LONG / CLOSE_ALL close any existing position, reassigning the
`notional` local to `pos.quantity * execution_price` while `comm` keeps
the value computed from `signal.quantity`. -/
def execute_signal (st : EngineState) (signal : TradingSignal)
    (price : ℚ) (timestamp : ℚ) : EngineState :=
  let symbol := signal.symbol
  match signal.action with
  | SignalAction.BUY =>
      let execution_price := price * (1 + st.slippage)
      let notional := signal.quantity * execution_price
      let comm := notional * st.commission
      match dget st.positions symbol with
      | some pos =>
          let total_qty := pos.quantity + signal.quantity
          let avg_price :=
            (pos.entry_price * pos.quantity + execution_price * signal.quantity) / total_qty
          { st with
            positions := dset st.positions symbol
              { pos with quantity := total_qty, entry_price := avg_price }
            capital := st.capital - (notional + comm) }
      | none =>
          { st with
            positions := dset st.positions symbol
              { symbol := symbol
                side := "LONG"
                quantity := signal.quantity
                entry_price := execution_price
                current_price := execution_price
                unrealized_pnl := 0 }
            capital := st.capital - (notional + comm) }
  | SignalAction.SELL =>
      let execution_price := price * (1 - st.slippage)
      let notional := signal.quantity * execution_price
      let comm := notional * st.commission
      match dget st.positions symbol with
      | some pos =>
          if pos.side = "LONG" then
            let pnl := (execution_price - pos.entry_price) * pos.quantity - comm
            { st with
              trades := st.trades ++
                [{ entry_time := timestamp
                   exit_time := timestamp
                   symbol := symbol
                   side := "LONG"
                   entry_price := pos.entry_price
                   exit_price := execution_price
                   quantity := pos.quantity
                   pnl := pnl
                   pnl_pct := pnl / (pos.entry_price * pos.quantity) * 100
                   commission := comm }]
              capital := st.capital + (notional - comm)
              positions := ddel st.positions symbol }
          else st
      | none => st
  | SignalAction.CLOSE_LONG | SignalAction.CLOSE_ALL =>
      let execution_price := price * (1 - st.slippage)
      let comm := signal.quantity * execution_price * st.commission
      match dget st.positions symbol with
      | some pos =>
          let notional := pos.quantity * execution_price
          let pnl := (execution_price - pos.entry_price) * pos.quantity - comm
          { st with
            trades := st.trades ++
              [{ entry_time := timestamp
                 exit_time := timestamp
                 symbol := symbol
                 side := pos.side
                 entry_price := pos.entry_price
                 exit_price := execution_price
                 quantity := pos.quantity
                 pnl := pnl
                 pnl_pct := pnl / (pos.entry_price * pos.quantity) * 100
                 commission := comm }]
            capital := st.capital + (notional - comm)
            positions := ddel st.positions symbol }
      | none => st
  | SignalAction.CLOSE_SHORT => st

/-- `SimpleBacktestEngine._update_positions`: refresh every open
position's current price and unrealized PnL. -/
def update_positions (st : EngineState) (price : ℚ) : EngineState :=
  { st with positions := st.positions.map (fun p => (p.1, p.2.update_price price)) }

/-- `SimpleBacktestEngine._calculate_equity`:
`capital + Σ (unrealized_pnl + entry_price * quantity)` over open positions. -/
def calculate_equity (st : EngineState) : ℚ :=
  st.capital + (st.positions.map
    (fun p => p.2.unrealized_pnl + p.2.entry_price * p.2.quantity)).sum

/-- `BacktestResult` of `backtest.py`. The `sharpe_ratio` field is not
embedded: the source computes it with floating-point `pct_change`,
`std` and `√252`, which have no exact rational counterpart; no other
field depends on it. -/
structure BacktestResult where
  total_pnl : ℚ := 0
  total_return_pct : ℚ := 0
  total_trades : ℕ := 0
  winning_trades : ℕ := 0
  losing_trades : ℕ := 0
  win_rate : ℚ := 0
  avg_win : ℚ := 0
  avg_loss : ℚ := 0
  max_drawdown : ℚ := 0
  max_drawdown_pct : ℚ := 0
  profit_factor : ℚ := 0
  start_capital : ℚ := 0
  end_capital : ℚ := 0
  trades : List Trade := []
  equity_curve : List ℚ := []
  deriving DecidableEq, Repr

/-- One iteration of the max-drawdown loop in
`SimpleBacktestEngine._calculate_results`: the accumulator is
`(peak, max_dd, max_dd_pct)`. -/
def ddStep : ℚ × ℚ × ℚ → ℚ → ℚ × ℚ × ℚ :=
  fun acc equity =>
    let peak := if equity > acc.1 then equity else acc.1
    let dd := peak - equity
    let dd_pct := if peak > 0 then dd / peak * 100 else 0
    if dd > acc.2.1 then (peak, dd, dd_pct) else (peak, acc.2.1, acc.2.2)

/-- The max-drawdown pass of `_calculate_results`: `peak` starts at
`equity_curve[0]` and the loop visits every sample. The source indexes
`[0]` directly; every reachable engine state has a nonempty curve
(seeded with `[initial_capital]`), so the `[]` case is unreachable. -/
def maxDrawdown (curve : List ℚ) : ℚ × ℚ :=
  match curve with
  | [] => (0, 0)
  | c₀ :: _ =>
      let acc := curve.foldl ddStep (c₀, 0, 0)
      (acc.2.1, acc.2.2)

/-- `SimpleBacktestEngine._calculate_results` (all fields except the
floating-point `sharpe_ratio`, see `BacktestResult`). Trade statistics
default to 0 and are only filled in when the trade log is nonempty;
`profit_factor` is only assigned when the absolute sum of losing PnL is
positive. -/
def calculate_results (st : EngineState) : BacktestResult :=
  let end_capital := calculate_equity st
  let total_pnl := end_capital - st.initial_capital
  let base : BacktestResult :=
    { start_capital := st.initial_capital
      end_capital := end_capital
      total_pnl := total_pnl
      total_return_pct := total_pnl / st.initial_capital * 100
      trades := st.trades
      total_trades := st.trades.length
      equity_curve := st.equity_curve
      max_drawdown := (maxDrawdown st.equity_curve).1
      max_drawdown_pct := (maxDrawdown st.equity_curve).2 }
  if st.trades.length > 0 then
    let wins := st.trades.filter (fun t => t.pnl > 0)
    let losses := st.trades.filter (fun t => t.pnl < 0)
    let total_wins := (wins.map (fun t => t.pnl)).sum
    let total_losses := |(losses.map (fun t => t.pnl)).sum|
    { base with
      winning_trades := wins.length
      losing_trades := losses.length
      win_rate := (wins.length : ℚ) / (st.trades.length : ℚ) * 100
      avg_win := if wins ≠ [] then total_wins / (wins.length : ℚ) else 0
      avg_loss :=
        if losses ≠ [] then (losses.map (fun t => t.pnl)).sum / (losses.length : ℚ) else 0
      profit_factor := if total_losses > 0 then total_wins / total_losses else 0 }
  else base

/-- One event of a backtest run, as seen by the ledger: either a signal
executed at a market price and timestamp (`_process_signals`), or a
price update of all open positions (`_update_positions`). -/
inductive Event
  | signal (s : TradingSignal) (price : ℚ) (timestamp : ℚ)
  | priceUpdate (price : ℚ)
  deriving DecidableEq, Repr

/-- Apply one event to the engine state. -/
def step (st : EngineState) : Event → EngineState
  | Event.signal s price timestamp => execute_signal st s price timestamp
  | Event.priceUpdate price => update_positions st price

/-- Apply a sequence of events in order. -/
def runEvents (st : EngineState) : List Event → EngineState
  | [] => st
  | e :: es => runEvents (step st e) es

/-- The cash delta an event produces: the change in `capital` across the
event (price updates never move cash; no-op signals produce delta 0). -/
def cashDelta (st : EngineState) (e : Event) : ℚ :=
  (step st e).capital - st.capital

/-- The sum of the cash deltas produced by a sequence of events, each
measured at the state it executes in. -/
def sumCashDeltas (st : EngineState) : List Event → ℚ
  | [] => 0
  | e :: es => cashDelta st e + sumCashDeltas (step st e) es

/-- The sum of `unrealized_pnl` over all open positions. -/
def sumUnrealized (st : EngineState) : ℚ :=
  (st.positions.map (fun p => p.2.unrealized_pnl)).sum

/-- The sum of `unrealized_pnl + entry_price * quantity` over all open
positions: exactly the position contribution `_calculate_equity` adds
to cash. -/
def sumPositionValue (st : EngineState) : ℚ :=
  (st.positions.map (fun p => p.2.unrealized_pnl + p.2.entry_price * p.2.quantity)).sum

end Backtest

namespace Dispatcher

/-- A dynamically-typed Python value, covering the shapes that appear in
`ExecutionDecision.params`, `ExecutionResult.metadata` and the simulated
trade dicts of the backends: strings, numbers, ints, booleans, numeric
pairs (the `price_range` tuple) and `None`. -/
inductive PV
  | str (s : String)
  | num (q : ℚ)
  | int (n : ℕ)
  | bool (b : Bool)
  | pair (a b : ℚ)
  | none
  deriving DecidableEq, Repr

/-- Association-list lookup for Python-dict-valued fields
(`params.get(k)`; first matching key wins). -/
def pget (d : List (String × PV)) (k : String) : Option PV :=
  match d with
  | [] => Option.none
  | (k₁, v) :: rest => if k₁ = k then some v else pget rest k

/-- `ExecutionDecision` (pydantic model in `backends/base.py`). -/
structure ExecutionDecision where
  backend_id : String
  action : String
  symbol : String
  quantity : Option ℚ
  params : List (String × PV) := []
  rationale : String := ""
  deriving DecidableEq, Repr

/-- `ExecutionResult` (pydantic model in `backends/base.py`). A trade
entry is a Python dict, modelled as a `(String × PV)` list. -/
structure ExecutionResult where
  success : Bool
  backend_id : String
  trades : List (List (String × PV)) := []
  message : String
  metadata : List (String × PV) := []
  deriving DecidableEq, Repr

/-- The execution context (`Dict[str, Any]`); none of the embedded
backends read it, so it is opaque. -/
abbrev Context : Type := Unit

/-- An `ExecutionBackend` as the dispatcher sees it: its id, a total
`supports` predicate, and an `execute` that either returns a result or
raises (modelled as `Except.error` carrying the exception message). -/
structure ExecutionBackend where
  backend_id : String
  name : String
  supports : ExecutionDecision → Bool
  execute : ExecutionDecision → Context → Except String ExecutionResult

/-- The `ExecutionDispatcher` registry state: `_backends` and
`_default_backend_id`. -/
structure DispatcherState where
  _backends : List (String × ExecutionBackend) := []
  _default_backend_id : Option String := Option.none

/-- `ExecutionDispatcher.register_backend`: store under
`backend.backend_id` (duplicate ids overwrite). -/
def register_backend (d : DispatcherState) (backend : ExecutionBackend) : DispatcherState :=
  { d with _backends :=
      if (pgetB d._backends backend.backend_id).isSome then
        d._backends.map (fun p => if p.1 = backend.backend_id then (p.1, backend) else p)
      else
        d._backends ++ [(backend.backend_id, backend)] }
where
  /-- Backend-registry lookup (same first-key-wins discipline as `pget`). -/
  pgetB (bs : List (String × ExecutionBackend)) (k : String) : Option ExecutionBackend :=
    match bs with
    | [] => Option.none
    | (k₁, v) :: rest => if k₁ = k then some v else pgetB rest k

/-- `ExecutionDispatcher.set_default_backend`: raises `ValueError`
("Backend not registered: …") when the id is unknown, else records it.
The raise is modelled as `Except.error`. -/
def set_default_backend (d : DispatcherState) (backend_id : String) :
    Except String DispatcherState :=
  if (register_backend.pgetB d._backends backend_id).isSome then
    Except.ok { d with _default_backend_id := some backend_id }
  else
    Except.error ("Backend not registered: " ++ backend_id)

/-- The backend `dispatch` resolves for a decision: the registered
backend under `decision.backend_id`, else the default backend when one
is configured, else none. -/
def resolveBackend (d : DispatcherState) (decision : ExecutionDecision) :
    Option ExecutionBackend :=
  match register_backend.pgetB d._backends decision.backend_id with
  | some b => some b
  | Option.none =>
      match d._default_backend_id with
      | some did => register_backend.pgetB d._backends did
      | Option.none => Option.none

/-- `ExecutionDispatcher.dispatch`: resolve the backend (with default
fallback), check `supports`, invoke `execute`, and convert any exception
it raises into a failed `ExecutionResult` with message
"Execution failed: …" and the error string under `metadata["error"]`.
The function is total: no exception reaches the caller. -/
def dispatch (d : DispatcherState) (decision : ExecutionDecision) (ctx : Context) :
    ExecutionResult :=
  match resolveBackend d decision with
  | Option.none =>
      { success := false
        backend_id := decision.backend_id
        message := "Unknown backend: " ++ decision.backend_id }
  | some backend =>
      if ¬ backend.supports decision then
        { success := false
          backend_id := decision.backend_id
          message := "Backend " ++ decision.backend_id ++
            " does not support this decision type" }
      else
        match backend.execute decision ctx with
        | Except.ok result => result
        | Except.error e =>
            { success := false
              backend_id := backend.backend_id
              message := "Execution failed: " ++ e
              metadata := [("error", PV.str e)] }

/-- `DirectOrderBackend.execute` (`backends/direct_order.py`): `hold`
succeeds with no trades; actions other than buy/sell/hold fail with an
"Unsupported action" message; buy/sell synthesize one SIMULATED trade
dict from the decision. Never raises. -/
def directOrderExecute (decision : ExecutionDecision) (_ctx : Context) :
    Except String ExecutionResult :=
  if decision.action = "hold" then
    Except.ok
      { success := true
        backend_id := "direct_order"
        message := "No action taken (hold)"
        metadata := [("action", PV.str "hold")] }
  else if decision.action ≠ "buy" ∧ decision.action ≠ "sell" then
    Except.ok
      { success := false
        backend_id := "direct_order"
        message := "Unsupported action: " ++ decision.action }
  else
    Except.ok
      { success := true
        backend_id := "direct_order"
        trades := [[("symbol", PV.str decision.symbol),
                    ("side", PV.str decision.action.toUpper),
                    ("quantity", PV.num ((decision.quantity).getD 0)),
                    ("status", PV.str "SIMULATED"),
                    ("rationale", PV.str decision.rationale)]]
        message := "Direct " ++ decision.action ++ " order placed for " ++ decision.symbol
        metadata := [("simulated", PV.bool true)] }

/-- The `direct_order` backend: `supports` accepts buy/sell/hold. -/
def directOrderBackend : ExecutionBackend :=
  { backend_id := "direct_order"
    name := "直接下单"
    supports := fun decision =>
      decision.action = "buy" ∨ decision.action = "sell" ∨ decision.action = "hold"
    execute := directOrderExecute }

/-- The grid-order list built by `GridStrategyBackend.execute`
(`backends/grid_strategy.py`): for `i in range(grid_size)`, level `i+1`,
side BUY when `i < grid_size // 2` else SELL, quantity
`amount_per_grid`, status PENDING. -/
def gridOrders (symbol : String) (grid_size : ℕ) (amount_per_grid : PV) :
    List (List (String × PV)) :=
  (List.range grid_size).map (fun i =>
    [("symbol", PV.str symbol),
     ("grid_level", PV.int (i + 1)),
     ("side", PV.str (if i < grid_size / 2 then "BUY" else "SELL")),
     ("quantity", amount_per_grid),
     ("status", PV.str "PENDING")])

/-- Count of the grid orders carrying a given side tag. -/
def gridSideCount (orders : List (List (String × PV))) (side : String) : ℕ :=
  (orders.filter (fun o => pget o "side" = some (PV.str side))).length

/-- The `amount_per_grid` parameter of `GridStrategyBackend.execute`:
`decision.params.get("amount_per_grid", decision.quantity)`. -/
def gridAmount (decision : ExecutionDecision) : PV :=
  match pget decision.params "amount_per_grid" with
  | some v => v
  | Option.none =>
      match decision.quantity with
      | some q => PV.num q
      | Option.none => PV.none

/-- `GridStrategyBackend.execute`: read `grid_size` (default 10),
`price_range` (default `(0.95, 1.05)`) and `amount_per_grid` (default
`decision.quantity`) from `params`; `hold` succeeds with no orders;
otherwise build the grid-order list and return success with NO trades
and metadata reporting the pending-order count. A non-int `grid_size`
makes the Python loop raise `TypeError` inside the handler's own
`try`, which returns the backend's failure result. -/
def gridExecute (decision : ExecutionDecision) (_ctx : Context) :
    Except String ExecutionResult :=
  let price_range := (pget decision.params "price_range").getD (PV.pair (95/100) (105/100))
  let amount_per_grid := gridAmount decision
  match (pget decision.params "grid_size").getD (PV.int 10) with
  | PV.int grid_size =>
      if decision.action = "hold" then
        Except.ok
          { success := true
            backend_id := "grid_strategy"
            message := "Grid strategy on hold"
            metadata := [("action", PV.str "hold")] }
      else
        let orders := gridOrders decision.symbol grid_size amount_per_grid
        Except.ok
          { success := true
            backend_id := "grid_strategy"
            trades := []
            message := "Grid strategy set up for " ++ decision.symbol
            metadata := [("grid_size", PV.int grid_size),
                         ("price_range", price_range),
                         ("pending_orders", PV.int orders.length),
                         ("simulated", PV.bool true)] }
  | _ =>
      Except.ok
        { success := false
          backend_id := "grid_strategy"
          message := "Grid strategy execution failed: grid_size is not an integer" }

/-- The `grid_strategy` backend: `supports` accepts
buy/sell/hold/delegate. -/
def gridBackend : ExecutionBackend :=
  { backend_id := "grid_strategy"
    name := "网格交易策略"
    supports := fun decision =>
      decision.action = "buy" ∨ decision.action = "sell" ∨
      decision.action = "hold" ∨ decision.action = "delegate"
    execute := gridExecute }

/-- `QuantStrategyBackend.SUPPORTED_STRATEGIES`. -/
def SUPPORTED_STRATEGIES : List String :=
  ["ema_cross", "rsi", "bollinger_bands", "macd", "momentum"]

/-- Rendering of a dynamically-typed value inside an f-string message. -/
def pvText : PV → String
  | PV.str s => s
  | PV.num q => toString q
  | PV.int n => toString n
  | PV.bool b => toString b
  | PV.pair a b => toString a ++ ", " ++ toString b
  | PV.none => "None"

/-- `QuantStrategyBackend.execute` (`backends/quant_strategy.py`): read
`strategy_id` from `params` (default "ema_cross"); an id outside the
allow-list fails with an "Unknown strategy" message (no exception);
otherwise simulate the strategy: one trade dict for buy/sell, none for
other actions. -/
def quantExecute (decision : ExecutionDecision) (_ctx : Context) :
    Except String ExecutionResult :=
  let strategy_id := (pget decision.params "strategy_id").getD (PV.str "ema_cross")
  let isSupported : Bool :=
    match strategy_id with
    | PV.str s => SUPPORTED_STRATEGIES.contains s
    | _ => false
  if isSupported = false then
    Except.ok
      { success := false
        backend_id := "quant_nautilus"
        message := "Unknown strategy: " ++ pvText strategy_id ++
          ". Supported: ema_cross, rsi, bollinger_bands, macd, momentum" }
  else
    let sid := pvText strategy_id
    let isOrder := decision.action = "buy" ∨ decision.action = "sell"
    Except.ok
      { success := true
        backend_id := "quant_nautilus"
        trades :=
          if isOrder then
            [[("symbol", PV.str decision.symbol),
              ("side", PV.str (if isOrder then decision.action.toUpper else "NONE")),
              ("quantity", PV.num ((decision.quantity).getD 0)),
              ("status", PV.str "SIMULATED"),
              ("strategy_id", PV.str sid),
              ("rationale", PV.str ("Quant strategy (" ++ sid ++ "): " ++ decision.rationale))]]
          else []
        message := "Executed via " ++ sid ++ " strategy for " ++ decision.symbol
        metadata := [("strategy_id", PV.str sid), ("simulated", PV.bool true)] }

/-- The `quant_nautilus` backend: `supports` accepts buy/sell/hold. -/
def quantBackend : ExecutionBackend :=
  { backend_id := "quant_nautilus"
    name := "Nautilus 量化策略"
    supports := fun decision =>
      decision.action = "buy" ∨ decision.action = "sell" ∨ decision.action = "hold"
    execute := quantExecute }

end Dispatcher

open Backtest Dispatcher

/-! Concrete scenario states used by the theorems below. -/

/-- Scenario A/B engine: initial_capital 10000, commission rate 0.001,
slippage 0. -/
def scenarioStart : EngineState := initEngine 10000 (1/1000) 0

/-- Scenario A: one BUY signal for 0.1 units at market price 100. -/
def scenarioA : EngineState :=
  execute_signal scenarioStart ⟨"BTC/USDT", SignalAction.BUY, 1/10⟩ 100 0

/-- Scenario B: continuing from A, one CLOSE_ALL signal (quantity 0.1)
at market price 110. -/
def scenarioB : EngineState :=
  execute_signal scenarioA ⟨"BTC/USDT", SignalAction.CLOSE_ALL, 1/10⟩ 110 1

/-- A SHORT position: entry 100, quantity 1. SHORT positions are created
outside the engine's own signal paths (mock execution wrapper), but the
state space admits them and CLOSE handles them. -/
def shortPos : Position :=
  { symbol := "X", side := "SHORT", quantity := 1,
    entry_price := 100, current_price := 100, unrealized_pnl := 0 }

/-- A state holding only `shortPos`, with no commission or slippage. -/
def shortState : EngineState :=
  { initial_capital := 1000
    commission := 0
    slippage := 0
    capital := 1000
    positions := [("X", shortPos)]
    trades := []
    equity_curve := [1000] }

/-- Closing the SHORT position of `shortState` at market price 90. -/
def shortClose : EngineState :=
  execute_signal shortState ⟨"X", SignalAction.CLOSE_ALL, 1⟩ 90 5

/-- A LONG position: entry 100, quantity 2. -/
def longPos : Position :=
  { symbol := "X", side := "LONG", quantity := 2,
    entry_price := 100, current_price := 100, unrealized_pnl := 0 }

/-- A state holding only `longPos`, commission rate 0.001, no slippage. -/
def longState : EngineState :=
  { initial_capital := 1000
    commission := 1/1000
    slippage := 0
    capital := 1000
    positions := [("X", longPos)]
    trades := []
    equity_curve := [1000] }

/-- The single-event run of Scenario A, as an event list. -/
def scenarioAEvents : List Event :=
  [Event.signal ⟨"BTC/USDT", SignalAction.BUY, 1/10⟩ 100 0]

/-- A registered backend whose `execute` always raises (message
"kaboom") — exercises the dispatcher's exception boundary. -/
def boomBackend : ExecutionBackend :=
  { backend_id := "boom"
    name := "Boom"
    supports := fun _ => true
    execute := fun _ _ => Except.error "kaboom" }

/-- Dispatcher registry holding only `boomBackend`, no default. -/
def boomDispatcher : DispatcherState :=
  { _backends := [("boom", boomBackend)], _default_backend_id := Option.none }

/-- A buy decision addressed to the `boom` backend. -/
def boomDecision : ExecutionDecision :=
  { backend_id := "boom", action := "buy", symbol := "BTC/USDT",
    quantity := some 1, params := [], rationale := "r" }

/-- Scenario C dispatcher: only `direct_order` registered, and set as
the default backend. -/
def scenarioCDispatcher : DispatcherState :=
  { _backends := [("direct_order", directOrderBackend)]
    _default_backend_id := some "direct_order" }

/-- Scenario C decision: `backend_id` names a backend that is not
registered, with an action `direct_order` supports. -/
def scenarioCDecision : ExecutionDecision :=
  { backend_id := "nonexistent", action := "buy", symbol := "BTC/USDT",
    quantity := some 1, params := [], rationale := "r" }

/-- A grid decision with `grid_size = 3` (an odd level count). -/
def gridDecision3 : ExecutionDecision :=
  { backend_id := "grid_strategy", action := "buy", symbol := "BTC/USDT",
    quantity := some 1, params := [("grid_size", PV.int 3)], rationale := "r" }

/-- A grid decision with `grid_size = 4` (an even level count). -/
def gridDecision4 : ExecutionDecision :=
  { backend_id := "grid_strategy", action := "buy", symbol := "BTC/USDT",
    quantity := some 1, params := [("grid_size", PV.int 4)], rationale := "r" }

/-- A decision naming an unregistered backend, dispatched against an
empty registry with no default. -/
def unknownDecision : ExecutionDecision :=
  { backend_id := "ghost", action := "buy", symbol := "BTC/USDT",
    quantity := some 1, params := [], rationale := "r" }

/-- A quant decision whose `strategy_id` is outside the allow-list. -/
def badStrategyDecision : ExecutionDecision :=
  { backend_id := "quant_nautilus", action := "buy", symbol := "BTC/USDT",
    quantity := some 1, params := [("strategy_id", PV.str "zzz")], rationale := "r" }

/-! Helper lemmas on the dict model and the run machinery. -/

theorem dget_dset {α : Type} (d : List (String × α)) (k : String) (v : α) :
    dget (dset d k v) k = some v := by
  induction d with
  | nil => simp [dset, dget]
  | cons hd tl ih =>
      obtain ⟨k₁, w⟩ := hd
      by_cases hk : k₁ = k
      · simp [dset, hk, dget]
      · simp [dset, hk, dget, ih]

theorem dget_ddel {α : Type} (d : List (String × α)) (k : String) :
    dget (ddel d k) k = Option.none := by
  induction d with
  | nil => rfl
  | cons hd tl ih =>
      by_cases hk : hd.1 = k
      · simpa [ddel, hk] using ih
      · simpa [ddel, hk, dget] using ih

theorem step_initial_capital (st : EngineState) (e : Event) :
    (step st e).initial_capital = st.initial_capital := by
  cases e with
  | priceUpdate p => rfl
  | signal s p t =>
      obtain ⟨sym, act, q⟩ := s
      cases act <;> simp only [step, execute_signal] <;>
        (try split) <;> (try split) <;> rfl

theorem runEvents_initial_capital (st : EngineState) (es : List Event) :
    (runEvents st es).initial_capital = st.initial_capital := by
  induction es generalizing st with
  | nil => rfl
  | cons e es ih => rw [runEvents, ih, step_initial_capital]

theorem runEvents_capital (st : EngineState) (es : List Event) :
    (runEvents st es).capital = st.capital + sumCashDeltas st es := by
  induction es generalizing st with
  | nil => simp [runEvents, sumCashDeltas]
  | cons e es ih =>
      rw [runEvents, sumCashDeltas, cashDelta, ih (step st e)]
      ring

theorem calculate_results_total_pnl (st : EngineState) :
    (calculate_results st).total_pnl = calculate_equity st - st.initial_capital := by
  unfold calculate_results
  split <;> rfl

/-! The claims. -/

/-- C1, counterexample: at the claim's own inputs the final cash is
10000.979 (= 9989.99 + (11 − 0.011)), not the claimed 10000.969. -/
theorem C1_counterexample :
    scenarioB.capital = 10000979/1000 ∧ scenarioB.capital ≠ 10000969/1000 := by
  constructor <;>
    norm_num [scenarioB, scenarioA, scenarioStart, execute_signal, initEngine,
      dget, dset, ddel]

/-- C1 (amended): starting with initial_capital 10000, commission rate
0.001 and slippage 0, one BUY for 0.1 units at price 100 leaves cash
9989.99 and exactly one open LONG position (qty 0.1, entry 100); the
following CLOSE_ALL (quantity 0.1) at price 110 appends exactly one
Trade with pnl 0.989, empties the position map, and leaves cash
10000.979. -/
theorem C1_scenario :
    scenarioA.capital = 998999/100 ∧
    scenarioA.positions =
      [("BTC/USDT",
        { symbol := "BTC/USDT", side := "LONG", quantity := 1/10, entry_price := 100,
          current_price := 100, unrealized_pnl := 0 })] ∧
    scenarioB.trades =
      [{ entry_time := 1, exit_time := 1, symbol := "BTC/USDT", side := "LONG",
         entry_price := 100, exit_price := 110, quantity := 1/10,
         pnl := 989/1000, pnl_pct := 989/100, commission := 11/1000 }] ∧
    scenarioB.positions = [] ∧
    scenarioB.capital = 10000979/1000 := by
  refine ⟨?_, ?_, ?_, ?_, ?_⟩ <;>
    norm_num [scenarioB, scenarioA, scenarioStart, execute_signal, initEngine,
      dget, dset, ddel, Trade.mk.injEq]

/-- C2, counterexample: closing the SHORT position of `shortState`
(entry 100, qty 1, zero commission and slippage) at market price 90
records pnl = −10, where the claim's formula
(entry − exec) × qty − commission gives +10. -/
theorem C2_counterexample :
    shortClose.trades.map (fun t => t.pnl) = [-10] ∧
    ((-10 : ℚ) ≠ (100 - 90) * 1 - 0) := by
  refine ⟨?_, by norm_num⟩
  norm_num [shortClose, shortState, shortPos, execute_signal, dget, ddel]

/-- C2 (amended): for every CLOSE_LONG or CLOSE_ALL signal applied while
the held position for the signal's symbol has side SHORT, the recorded
trade's pnl equals (exec_price − entry_price) × qty − commission — the
LONG formula, NOT negated for the SHORT side — with
exec_price = market_price × (1 − slippage). -/
theorem C2_short_close_pnl (st : EngineState) (sig : TradingSignal)
    (price ts : ℚ) (pos : Position)
    (hact : sig.action = SignalAction.CLOSE_LONG ∨ sig.action = SignalAction.CLOSE_ALL)
    (hget : dget st.positions sig.symbol = some pos)
    (hside : pos.side = "SHORT") :
    (execute_signal st sig price ts).trades = st.trades ++
      [{ entry_time := ts, exit_time := ts, symbol := sig.symbol, side := "SHORT",
         entry_price := pos.entry_price, exit_price := price * (1 - st.slippage),
         quantity := pos.quantity,
         pnl := (price * (1 - st.slippage) - pos.entry_price) * pos.quantity -
           sig.quantity * (price * (1 - st.slippage)) * st.commission,
         pnl_pct := ((price * (1 - st.slippage) - pos.entry_price) * pos.quantity -
           sig.quantity * (price * (1 - st.slippage)) * st.commission) /
           (pos.entry_price * pos.quantity) * 100,
         commission := sig.quantity * (price * (1 - st.slippage)) * st.commission }] := by
  obtain ⟨sym, act, q⟩ := sig
  simp only at hact hget ⊢
  rcases hact with h | h <;> subst h <;>
    simp [execute_signal, hget, hside]

/-- Witness for C2: the amended theorem applied to `shortState`. -/
theorem C2_witness :
    (SignalAction.CLOSE_ALL = SignalAction.CLOSE_LONG ∨
      SignalAction.CLOSE_ALL = SignalAction.CLOSE_ALL) ∧
    dget shortState.positions "X" = some shortPos ∧
    shortPos.side = "SHORT" ∧
    shortClose.trades = shortState.trades ++
      [{ entry_time := 5, exit_time := 5, symbol := "X", side := "SHORT",
         entry_price := shortPos.entry_price, exit_price := 90 * (1 - shortState.slippage),
         quantity := shortPos.quantity,
         pnl := (90 * (1 - shortState.slippage) - shortPos.entry_price) * shortPos.quantity -
           1 * (90 * (1 - shortState.slippage)) * shortState.commission,
         pnl_pct := ((90 * (1 - shortState.slippage) - shortPos.entry_price) * shortPos.quantity -
           1 * (90 * (1 - shortState.slippage)) * shortState.commission) /
           (shortPos.entry_price * shortPos.quantity) * 100,
         commission := 1 * (90 * (1 - shortState.slippage)) * shortState.commission }] :=
  ⟨Or.inr rfl, rfl, rfl,
    C2_short_close_pnl shortState ⟨"X", SignalAction.CLOSE_ALL, 1⟩ 90 5 shortPos
      (Or.inr rfl) rfl rfl⟩

/-- C3, counterexample: after the single BUY of Scenario A, the sum of
cash deltas (−10.01) plus the sum of unrealized pnl of open positions
(0) is −10.01, while total_pnl (end equity minus start capital) is
−0.01: the claimed ledger-conservation identity fails as soon as a
position is open, because equity also counts the invested notional
`entry_price × quantity`. -/
theorem C3_counterexample :
    sumCashDeltas scenarioStart scenarioAEvents +
      sumUnrealized (runEvents scenarioStart scenarioAEvents) = -1001/100 ∧
    (calculate_results (runEvents scenarioStart scenarioAEvents)).total_pnl = -1/100 ∧
    ((-1001/100 : ℚ) ≠ -1/100) := by
  refine ⟨?_, ?_, by norm_num⟩ <;>
    norm_num [scenarioAEvents, scenarioStart, runEvents, step, sumCashDeltas, cashDelta,
      sumUnrealized, execute_signal, initEngine, dget, dset, calculate_results,
      calculate_equity, maxDrawdown, ddStep]

/-- C3 (amended): at every point of a run from a fresh engine, the sum
of the cash deltas of all executed events plus the sum over open
positions of `entry_price × quantity + unrealized_pnl` (each position's
full contribution to equity) equals total_pnl (end equity minus start
capital). -/
theorem C3_ledger_conservation (c cr sl : ℚ) (es : List Event) :
    sumCashDeltas (initEngine c cr sl) es +
      sumPositionValue (runEvents (initEngine c cr sl) es) =
    (calculate_results (runEvents (initEngine c cr sl) es)).total_pnl := by
  rw [calculate_results_total_pnl, runEvents_initial_capital]
  unfold calculate_equity sumPositionValue
  rw [runEvents_capital]
  simp only [initEngine]
  ring

/-- C4: whenever the resolved backend's `execute` raises (here:
returns `Except.error msg`), `dispatch` catches it and returns a failed
`ExecutionResult` whose message and metadata carry the original
exception message. `dispatch` is a total function into
`ExecutionResult`, so no exception ever propagates to its caller for
any decision and registry state. -/
theorem C4_dispatch_catches (d : DispatcherState) (decision : ExecutionDecision)
    (ctx : Context) (b : ExecutionBackend) (msg : String)
    (hres : resolveBackend d decision = some b)
    (hsupp : b.supports decision = true)
    (hexec : b.execute decision ctx = Except.error msg) :
    dispatch d decision ctx =
      { success := false, backend_id := b.backend_id, trades := [],
        message := "Execution failed: " ++ msg,
        metadata := [("error", PV.str msg)] } := by
  unfold dispatch
  rw [hres]
  simp [hsupp, hexec]

/-- Witness for C4: a registered backend that always raises "kaboom". -/
theorem C4_witness :
    resolveBackend boomDispatcher boomDecision = some boomBackend ∧
    boomBackend.supports boomDecision = true ∧
    boomBackend.execute boomDecision () = Except.error "kaboom" ∧
    dispatch boomDispatcher boomDecision () =
      { success := false, backend_id := boomBackend.backend_id, trades := [],
        message := "Execution failed: " ++ "kaboom",
        metadata := [("error", PV.str "kaboom")] } :=
  ⟨rfl, rfl, rfl,
    C4_dispatch_catches boomDispatcher boomDecision () boomBackend "kaboom" rfl rfl rfl⟩

/-- C5: with only `direct_order` registered and set as default,
dispatching a buy decision whose `backend_id` is "nonexistent" falls
back to `direct_order`, succeeds, and the result's `backend_id` is
"direct_order" (the backend actually used), not "nonexistent". -/
theorem C5_fallback_scenario :
    (dispatch scenarioCDispatcher scenarioCDecision ()).success = true ∧
    (dispatch scenarioCDispatcher scenarioCDecision ()).backend_id = "direct_order" ∧
    (dispatch scenarioCDispatcher scenarioCDecision ()).backend_id ≠ "nonexistent" := by
  refine ⟨rfl, rfl, ?_⟩
  decide

theorem length_filter_range_lt (n k : ℕ) :
    ((List.range n).filter (fun i => decide (i < k))).length = min k n := by
  induction n with
  | zero => simp
  | succ m ih =>
      rw [List.range_succ, List.filter_append, List.length_append, ih]
      by_cases h : m < k <;> simp [h] <;> omega

theorem length_filter_range_not_lt (n k : ℕ) :
    ((List.range n).filter (fun i => decide (¬ i < k))).length = n - min k n := by
  induction n with
  | zero => simp
  | succ m ih =>
      rw [List.range_succ, List.filter_append, List.length_append, ih]
      by_cases h : m < k
      · have h₂ : ¬ k ≤ m := by omega
        simp [h₂]
        omega
      · have h₂ : k ≤ m := by omega
        simp [List.filter_singleton, h₂]
        omega

theorem gridSideCount_buy (s : String) (n : ℕ) (a : PV) :
    gridSideCount (gridOrders s n a) "BUY" = n / 2 := by
  unfold gridSideCount gridOrders
  rw [List.filter_map, List.length_map]
  rw [List.filter_congr (q := fun i => decide (i < n / 2)) ?_]
  · rw [length_filter_range_lt]
    omega
  · intro i _
    by_cases h : i < n / 2 <;> simp [pget, h]

theorem gridSideCount_sell (s : String) (n : ℕ) (a : PV) :
    gridSideCount (gridOrders s n a) "SELL" = n - n / 2 := by
  unfold gridSideCount gridOrders
  rw [List.filter_map, List.length_map]
  rw [List.filter_congr (q := fun i => decide (¬ i < n / 2)) ?_]
  · rw [length_filter_range_not_lt]
    omega
  · intro i _
    by_cases h : i < n / 2 <;> simp [pget, h]

/-- C6, counterexample: a grid decision with `grid_size = 3` (action
buy) succeeds with no trades and 3 pending orders, but the orders are
NOT split evenly: 1 buy-side level versus 2 sell-side levels. -/
theorem C6_counterexample :
    gridExecute gridDecision3 () = Except.ok
      { success := true, backend_id := "grid_strategy", trades := [],
        message := "Grid strategy set up for BTC/USDT",
        metadata := [("grid_size", PV.int 3),
                     ("price_range", PV.pair (95/100) (105/100)),
                     ("pending_orders", PV.int 3),
                     ("simulated", PV.bool true)] } ∧
    gridSideCount (gridOrders "BTC/USDT" 3 (gridAmount gridDecision3)) "BUY" ≠
      gridSideCount (gridOrders "BTC/USDT" 3 (gridAmount gridDecision3)) "SELL" := by
  refine ⟨rfl, ?_⟩
  decide

/-- C6 (amended): for every grid decision with a buy or sell action and
parameter `grid_size = n`, the Grid backend's execute returns success
with an empty trades list and metadata reporting exactly n pending
orders; the n generated pending orders carry ⌊n/2⌋ buy-side and
n − ⌊n/2⌋ sell-side levels (an even split exactly when n is even). -/
theorem C6_grid (decision : ExecutionDecision) (n : ℕ)
    (hact : decision.action = "buy" ∨ decision.action = "sell")
    (hsize : pget decision.params "grid_size" = some (PV.int n)) :
    gridExecute decision () = Except.ok
      { success := true, backend_id := "grid_strategy", trades := [],
        message := "Grid strategy set up for " ++ decision.symbol,
        metadata := [("grid_size", PV.int n),
                     ("price_range",
                       (pget decision.params "price_range").getD (PV.pair (95/100) (105/100))),
                     ("pending_orders",
                       PV.int (gridOrders decision.symbol n (gridAmount decision)).length),
                     ("simulated", PV.bool true)] } ∧
    (gridOrders decision.symbol n (gridAmount decision)).length = n ∧
    gridSideCount (gridOrders decision.symbol n (gridAmount decision)) "BUY" = n / 2 ∧
    gridSideCount (gridOrders decision.symbol n (gridAmount decision)) "SELL" = n - n / 2 := by
  refine ⟨?_, ?_, gridSideCount_buy _ _ _, gridSideCount_sell _ _ _⟩
  · unfold gridExecute
    rw [hsize]
    rcases hact with h | h <;> simp [h]
  · simp [gridOrders]

/-- Witness for C6: the amended theorem at `grid_size = 4`. -/
theorem C6_witness :
    (gridDecision4.action = "buy" ∨ gridDecision4.action = "sell") ∧
    pget gridDecision4.params "grid_size" = some (PV.int 4) ∧
    (gridExecute gridDecision4 () = Except.ok
      { success := true, backend_id := "grid_strategy", trades := [],
        message := "Grid strategy set up for " ++ gridDecision4.symbol,
        metadata := [("grid_size", PV.int 4),
                     ("price_range",
                       (pget gridDecision4.params "price_range").getD (PV.pair (95/100) (105/100))),
                     ("pending_orders",
                       PV.int (gridOrders gridDecision4.symbol 4 (gridAmount gridDecision4)).length),
                     ("simulated", PV.bool true)] } ∧
    (gridOrders gridDecision4.symbol 4 (gridAmount gridDecision4)).length = 4 ∧
    gridSideCount (gridOrders gridDecision4.symbol 4 (gridAmount gridDecision4)) "BUY" = 4 / 2 ∧
    gridSideCount (gridOrders gridDecision4.symbol 4 (gridAmount gridDecision4)) "SELL" = 4 - 4 / 2) :=
  ⟨Or.inl rfl, rfl, C6_grid gridDecision4 4 (Or.inl rfl) rfl⟩

/-- C7, counterexample: `set_default_backend` is a public entry point of
the dispatcher, and for the configuration error "unknown backend id" it
raises `ValueError` ("Backend not registered: …") instead of returning
a failed result object. -/
theorem C7_counterexample :
    set_default_backend ({} : DispatcherState) "nonexistent" =
      Except.error ("Backend not registered: " ++ "nonexistent") := rfl

/-- C7 (amended): the configuration errors that reach `dispatch`
(unknown backend id with no default configured) and
`QuantStrategyBackend.execute` (unknown strategy id) are reported as
failed result objects with a human-readable message and no exception;
`set_default_backend`, however, raises `ValueError` for an unknown
backend id rather than returning a failed result. -/
theorem C7_config_errors :
    (∀ (d : DispatcherState) (decision : ExecutionDecision) (ctx : Context),
       resolveBackend d decision = Option.none →
       dispatch d decision ctx =
         { success := false, backend_id := decision.backend_id, trades := [],
           message := "Unknown backend: " ++ decision.backend_id, metadata := [] }) ∧
    (∀ (decision : ExecutionDecision) (ctx : Context) (sid : String),
       pget decision.params "strategy_id" = some (PV.str sid) →
       SUPPORTED_STRATEGIES.contains sid = false →
       quantExecute decision ctx = Except.ok
         { success := false, backend_id := "quant_nautilus", trades := [],
           message := "Unknown strategy: " ++ sid ++
             ". Supported: ema_cross, rsi, bollinger_bands, macd, momentum",
           metadata := [] }) ∧
    (∀ (d : DispatcherState) (bid : String),
       register_backend.pgetB d._backends bid = Option.none →
       set_default_backend d bid =
         Except.error ("Backend not registered: " ++ bid)) := by
  refine ⟨?_, ?_, ?_⟩
  · intro d decision ctx hres
    unfold dispatch
    rw [hres]
  · intro decision ctx sid hsid hbad
    unfold quantExecute
    rw [hsid]
    have hmem : sid ∉ SUPPORTED_STRATEGIES := by simpa using hbad
    simp [pvText, hbad, hmem]
  · intro d bid hnone
    unfold set_default_backend
    rw [hnone]
    rfl

/-- Witness for C7: each branch of the amended claim at a concrete
input. -/
theorem C7_witness :
    resolveBackend ({} : DispatcherState) unknownDecision = Option.none ∧
    dispatch ({} : DispatcherState) unknownDecision () =
      { success := false, backend_id := unknownDecision.backend_id, trades := [],
        message := "Unknown backend: " ++ unknownDecision.backend_id, metadata := [] } ∧
    quantExecute badStrategyDecision () = Except.ok
      { success := false, backend_id := "quant_nautilus", trades := [],
        message := "Unknown strategy: " ++ "zzz" ++
          ". Supported: ema_cross, rsi, bollinger_bands, macd, momentum",
        metadata := [] } ∧
    set_default_backend ({} : DispatcherState) "ghost" =
      Except.error ("Backend not registered: " ++ "ghost") :=
  ⟨rfl,
   C7_config_errors.1 {} unknownDecision () rfl,
   C7_config_errors.2.1 badStrategyDecision () "zzz" rfl rfl,
   C7_config_errors.2.2 {} "ghost" rfl⟩

/-- C8: an empty trade log yields total_trades = 0, win_rate = 0,
profit_factor = 0, avg_win = 0 and avg_loss = 0 (all plain defaults,
no division is attempted); and profit_factor is 0 whenever there are no
losing trades, because the `total_losses > 0` guard fails. -/
theorem C8_empty_trades :
    (∀ st : EngineState, st.trades = [] →
       (calculate_results st).total_trades = 0 ∧
       (calculate_results st).win_rate = 0 ∧
       (calculate_results st).profit_factor = 0 ∧
       (calculate_results st).avg_win = 0 ∧
       (calculate_results st).avg_loss = 0) ∧
    (∀ st : EngineState, st.trades.filter (fun t => t.pnl < 0) = [] →
       (calculate_results st).profit_factor = 0) := by
  constructor
  · intro st h
    unfold calculate_results
    simp [h]
  · intro st h
    unfold calculate_results
    split
    · simp [h]
    · rfl

/-- Witness for C8: both parts at the freshly initialized engine. -/
theorem C8_witness :
    scenarioStart.trades = [] ∧
    ((calculate_results scenarioStart).total_trades = 0 ∧
     (calculate_results scenarioStart).win_rate = 0 ∧
     (calculate_results scenarioStart).profit_factor = 0 ∧
     (calculate_results scenarioStart).avg_win = 0 ∧
     (calculate_results scenarioStart).avg_loss = 0) ∧
    scenarioStart.trades.filter (fun t => t.pnl < 0) = [] ∧
    (calculate_results scenarioStart).profit_factor = 0 :=
  ⟨rfl, C8_empty_trades.1 scenarioStart rfl, rfl, C8_empty_trades.2 scenarioStart rfl⟩

/-- C9: a BUY signal on a symbol whose open position has side SHORT
merges the buy quantity into that position by volume-weighted average
without inspecting or changing its side: the position stays SHORT with
quantity old + signal quantity and the averaged entry price, cash still
decreases by notional + commission, and no Trade is appended (BUY
neither opens a LONG nor reduces/closes the SHORT). -/
theorem C9_buy_merges_into_short (st : EngineState) (sig : TradingSignal)
    (price ts : ℚ) (pos : Position)
    (hact : sig.action = SignalAction.BUY)
    (hget : dget st.positions sig.symbol = some pos)
    (hside : pos.side = "SHORT") :
    execute_signal st sig price ts =
      { st with
        positions := dset st.positions sig.symbol
          { pos with
            quantity := pos.quantity + sig.quantity
            entry_price := (pos.entry_price * pos.quantity +
              price * (1 + st.slippage) * sig.quantity) / (pos.quantity + sig.quantity) }
        capital := st.capital - (sig.quantity * (price * (1 + st.slippage)) +
          sig.quantity * (price * (1 + st.slippage)) * st.commission) } ∧
    dget (execute_signal st sig price ts).positions sig.symbol =
      some { pos with
             quantity := pos.quantity + sig.quantity
             entry_price := (pos.entry_price * pos.quantity +
               price * (1 + st.slippage) * sig.quantity) / (pos.quantity + sig.quantity) } ∧
    (execute_signal st sig price ts).trades = st.trades ∧
    ∀ q : Position, dget (execute_signal st sig price ts).positions sig.symbol = some q →
      q.side = "SHORT" := by
  obtain ⟨sym, act, q⟩ := sig
  simp only at hact hget ⊢
  subst hact
  have hmain : execute_signal st ⟨sym, SignalAction.BUY, q⟩ price ts =
      { st with
        positions := dset st.positions sym
          { pos with
            quantity := pos.quantity + q
            entry_price := (pos.entry_price * pos.quantity +
              price * (1 + st.slippage) * q) / (pos.quantity + q) }
        capital := st.capital - (q * (price * (1 + st.slippage)) +
          q * (price * (1 + st.slippage)) * st.commission) } := by
    simp [execute_signal, hget]
  refine ⟨hmain, ?_, ?_, ?_⟩
  · rw [hmain]
    exact dget_dset st.positions sym _
  · rw [hmain]
  · intro p hp
    rw [hmain, dget_dset] at hp
    cases hp
    exact hside

/-- Witness for C9: a BUY of 1 unit at price 90 merged into the SHORT
position of `shortState`. -/
theorem C9_witness :
    dget shortState.positions "X" = some shortPos ∧
    shortPos.side = "SHORT" ∧
    (execute_signal shortState ⟨"X", SignalAction.BUY, 1⟩ 90 5 =
      { shortState with
        positions := dset shortState.positions "X"
          { shortPos with
            quantity := shortPos.quantity + 1
            entry_price := (shortPos.entry_price * shortPos.quantity +
              90 * (1 + shortState.slippage) * 1) / (shortPos.quantity + 1) }
        capital := shortState.capital - (1 * (90 * (1 + shortState.slippage)) +
          1 * (90 * (1 + shortState.slippage)) * shortState.commission) } ∧
    dget (execute_signal shortState ⟨"X", SignalAction.BUY, 1⟩ 90 5).positions "X" =
      some { shortPos with
             quantity := shortPos.quantity + 1
             entry_price := (shortPos.entry_price * shortPos.quantity +
               90 * (1 + shortState.slippage) * 1) / (shortPos.quantity + 1) } ∧
    (execute_signal shortState ⟨"X", SignalAction.BUY, 1⟩ 90 5).trades = shortState.trades ∧
    ∀ p : Position,
      dget (execute_signal shortState ⟨"X", SignalAction.BUY, 1⟩ 90 5).positions "X" = some p →
      p.side = "SHORT") :=
  ⟨rfl, rfl,
    C9_buy_merges_into_short shortState ⟨"X", SignalAction.BUY, 1⟩ 90 5 shortPos rfl rfl rfl⟩

/-- C10: for every SELL, CLOSE_LONG or CLOSE_ALL signal, the commission
charged is signal.quantity × exec_price × commission_rate (from the
signal's quantity, not the closed position's); on SELL the cash credit
is signal.quantity × exec_price minus that commission while the entire
position is removed; on CLOSE the credit is pos.quantity × exec_price
minus that commission; hence a CLOSE signal with quantity 0 closes the
full position, credits pos.quantity × exec_price, and pays zero
commission. -/
theorem C10_close_commission_from_signal_qty (st : EngineState) (sig : TradingSignal)
    (price ts : ℚ) (pos : Position)
    (hget : dget st.positions sig.symbol = some pos) :
    (sig.action = SignalAction.SELL → pos.side = "LONG" →
       execute_signal st sig price ts =
         { st with
           trades := st.trades ++
             [{ entry_time := ts, exit_time := ts, symbol := sig.symbol, side := "LONG",
                entry_price := pos.entry_price, exit_price := price * (1 - st.slippage),
                quantity := pos.quantity,
                pnl := (price * (1 - st.slippage) - pos.entry_price) * pos.quantity -
                  sig.quantity * (price * (1 - st.slippage)) * st.commission,
                pnl_pct := ((price * (1 - st.slippage) - pos.entry_price) * pos.quantity -
                  sig.quantity * (price * (1 - st.slippage)) * st.commission) /
                  (pos.entry_price * pos.quantity) * 100,
                commission := sig.quantity * (price * (1 - st.slippage)) * st.commission }]
           capital := st.capital + (sig.quantity * (price * (1 - st.slippage)) -
             sig.quantity * (price * (1 - st.slippage)) * st.commission)
           positions := ddel st.positions sig.symbol }) ∧
    ((sig.action = SignalAction.CLOSE_LONG ∨ sig.action = SignalAction.CLOSE_ALL) →
       execute_signal st sig price ts =
         { st with
           trades := st.trades ++
             [{ entry_time := ts, exit_time := ts, symbol := sig.symbol, side := pos.side,
                entry_price := pos.entry_price, exit_price := price * (1 - st.slippage),
                quantity := pos.quantity,
                pnl := (price * (1 - st.slippage) - pos.entry_price) * pos.quantity -
                  sig.quantity * (price * (1 - st.slippage)) * st.commission,
                pnl_pct := ((price * (1 - st.slippage) - pos.entry_price) * pos.quantity -
                  sig.quantity * (price * (1 - st.slippage)) * st.commission) /
                  (pos.entry_price * pos.quantity) * 100,
                commission := sig.quantity * (price * (1 - st.slippage)) * st.commission }]
           capital := st.capital + (pos.quantity * (price * (1 - st.slippage)) -
             sig.quantity * (price * (1 - st.slippage)) * st.commission)
           positions := ddel st.positions sig.symbol }) ∧
    ((sig.action = SignalAction.CLOSE_LONG ∨ sig.action = SignalAction.CLOSE_ALL) →
       sig.quantity = 0 →
       (execute_signal st sig price ts).capital =
         st.capital + pos.quantity * (price * (1 - st.slippage)) ∧
       dget (execute_signal st sig price ts).positions sig.symbol = Option.none ∧
       (execute_signal st sig price ts).trades.map (fun t => t.commission) =
         st.trades.map (fun t => t.commission) ++ [0]) := by
  obtain ⟨sym, act, q⟩ := sig
  simp only at hget ⊢
  have hclose : (act = SignalAction.CLOSE_LONG ∨ act = SignalAction.CLOSE_ALL) →
      execute_signal st ⟨sym, act, q⟩ price ts =
        { st with
          trades := st.trades ++
            [{ entry_time := ts, exit_time := ts, symbol := sym, side := pos.side,
               entry_price := pos.entry_price, exit_price := price * (1 - st.slippage),
               quantity := pos.quantity,
               pnl := (price * (1 - st.slippage) - pos.entry_price) * pos.quantity -
                 q * (price * (1 - st.slippage)) * st.commission,
               pnl_pct := ((price * (1 - st.slippage) - pos.entry_price) * pos.quantity -
                 q * (price * (1 - st.slippage)) * st.commission) /
                 (pos.entry_price * pos.quantity) * 100,
               commission := q * (price * (1 - st.slippage)) * st.commission }]
          capital := st.capital + (pos.quantity * (price * (1 - st.slippage)) -
            q * (price * (1 - st.slippage)) * st.commission)
          positions := ddel st.positions sym } := by
    intro hact
    rcases hact with h | h <;> subst h <;> simp [execute_signal, hget]
  refine ⟨?_, hclose, ?_⟩
  · intro hact hside
    subst hact
    simp [execute_signal, hget, hside]
  · intro hact hq
    rw [hclose hact]
    subst hq
    refine ⟨by ring, ?_, by simp⟩
    exact dget_ddel st.positions sym

/-- Witness for C10: a CLOSE_ALL with signal quantity 0 against
`longState` (LONG 2 @ 100), at market price 110. -/
theorem C10_witness :
    dget longState.positions "X" = some longPos ∧
    (SignalAction.CLOSE_ALL = SignalAction.CLOSE_LONG ∨
      SignalAction.CLOSE_ALL = SignalAction.CLOSE_ALL) ∧
    (execute_signal longState ⟨"X", SignalAction.CLOSE_ALL, 0⟩ 110 5).capital =
      longState.capital + longPos.quantity * (110 * (1 - longState.slippage)) ∧
    dget (execute_signal longState ⟨"X", SignalAction.CLOSE_ALL, 0⟩ 110 5).positions "X" =
      Option.none ∧
    (execute_signal longState ⟨"X", SignalAction.CLOSE_ALL, 0⟩ 110 5).trades.map
      (fun t => t.commission) = longState.trades.map (fun t => t.commission) ++ [0] :=
  ⟨rfl, Or.inr rfl,
    (C10_close_commission_from_signal_qty longState ⟨"X", SignalAction.CLOSE_ALL, 0⟩
      110 5 longPos rfl).2.2 (Or.inr rfl) rfl⟩
